import Mathlib

/-!
Verification of the StatisticsGen component constructor
(`src/tfx/components/statistics_gen/component.py`, `StatisticsGen.__init__`).

The constructor is pure glue: legacy-alias resolution, output-channel
defaulting with split-name exclusion, options serialization, and spec
assembly.  We embed it shallowly: Python objects become Lean structures,
the mutable examples artifact is tracked by explicit state passing
(`examplesAfter` records the post-construction state of the examples
channel, capturing that `split_names` is read by plain attribute access
and then mutated in place through the borrowed list reference), and the
Python `for split in split_names: ... split_names.remove(split)` loop is
embedded with CPython iterator semantics: the iterator holds an index
that advances each step regardless of removals, and `list.remove`
deletes the first occurrence in the whole list.
-/

/-- An artifact with its ordered sequence of split names
(collaborator modelled from the spec: "an artifact exposing a mutable
`split_names` attribute", an "ordered sequence of strings"). -/
structure Artifact where
  split_names : List String
deriving DecidableEq

/-- A channel: a handle to a collection of artifacts (collaborator
modelled from the spec: "a channel exposing `get()` → collection of
artifacts"). -/
structure Channel where
  artifacts : List Artifact
deriving DecidableEq

/-- A TFDV StatsOptions object, abstracted to its serialized form. -/
structure StatsOptions where
  json : String
deriving DecidableEq

/-- `StatsOptions.to_json`: serialization to the transport string. -/
def StatsOptions.to_json (o : StatsOptions) : String :=
  o.json

/-- The `StatisticsGenSpec` record assembled by the constructor, with the
fields passed at `component.py` lines 104-109. `examples` is optional
because Python would pass `None` through when neither `examples` nor
`input_data` is supplied together with an explicit `output`. -/
structure StatisticsGenSpec where
  examples : Option Channel
  schema : Option Channel
  stats_options_json : Option String
  exclude_splits : Option (List String)
  statistics : Channel
deriving DecidableEq

/-- Modelled from the spec: `artifact_utils.get_single_instance` is not
under `src/`; the spec says it "fails with a cardinality error if the
channel does not contain exactly one artifact".  It returns the sole
artifact of a singleton list and errors otherwise. -/
def get_single_instance (l : List Artifact) : Except String Artifact :=
  match l with
  | [a] => Except.ok a
  | _ => Except.error ("expected list length of one but got " ++ toString l.length)

/-- The guard `if exclude_splits and split in exclude_splits` at
`component.py` line 96, with Python truthiness: `None` and the empty
list are falsy, so no exclusion happens for either. -/
def excludeCond (exclude_splits : Option (List String)) (split : String) : Bool :=
  match exclude_splits with
  | none => false
  | some es => !es.isEmpty && es.contains split

/-- One CPython `for`-loop over a list being mutated by `remove`:
the iterator index `i` advances by one each step whether or not a
removal happened, the current element is the one now at index `i`, and
`remove` (`List.erase`) deletes the first occurrence of that value in
the whole list.  The fuel argument only bounds the number of steps;
`forLoopRemove` supplies fuel equal to the initial length, which is
exact: `i` starts at 0, increases by 1 per step, and the loop stops
once `i` reaches the current (never-growing) length. -/
def forLoopRemoveAux (cond : String → Bool) : Nat → List String → Nat → List String
  | 0, l, _ => l
  | fuel + 1, l, i =>
    if h : i < l.length then
      if cond (l.get ⟨i, h⟩) then
        forLoopRemoveAux cond fuel (l.erase (l.get ⟨i, h⟩)) (i + 1)
      else forLoopRemoveAux cond fuel l (i + 1)
    else l

/-- The exclusion loop at `component.py` lines 95-97. -/
def forLoopRemove (cond : String → Bool) (l : List String) : List String :=
  forLoopRemoveAux cond l.length l 0

/-- Resolution of the deprecated `input_data` alias (`component.py`
lines 85-90): a truthy `input_data` replaces `examples`. -/
def resolveExamples (examples input_data : Option Channel) : Option Channel :=
  match input_data with
  | some c => some c
  | none => examples

/-- Result of a successful construction: the assembled spec, the number
of deprecation warnings emitted, and the post-construction state of the
resolved examples channel (its artifact's `split_names` list is aliased
by the local `split_names` variable, so in-place `remove` calls are
visible through it). -/
structure ConstructResult where
  spec : StatisticsGenSpec
  warnings : Nat
  examplesAfter : Option Channel
deriving DecidableEq

/-- Shallow embedding of `StatisticsGen.__init__` (`component.py` lines
54-110).  Arguments appear in source order; `instance_name` is omitted
as it is only forwarded to the base class.  Failure carries the error
message of the raising collaborator. -/
def StatisticsGen_init (examples : Option Channel) (schema : Option Channel)
    (stats_options : Option StatsOptions) (exclude_splits : Option (List String))
    (output : Option Channel) (input_data : Option Channel) :
    Except String ConstructResult :=
  match output with
  | some out =>
    Except.ok
      { spec :=
          { examples := resolveExamples examples input_data, schema := schema,
            stats_options_json := stats_options.map StatsOptions.to_json,
            exclude_splits := exclude_splits, statistics := out },
        warnings := if input_data.isSome then 1 else 0,
        examplesAfter := resolveExamples examples input_data }
  | none =>
    match resolveExamples examples input_data with
    | none => Except.error "AttributeError: NoneType object has no attribute get"
    | some exc =>
      match get_single_instance exc.artifacts with
      | Except.error e => Except.error e
      | Except.ok a =>
        Except.ok
          { spec :=
              { examples := some exc, schema := schema,
                stats_options_json := stats_options.map StatsOptions.to_json,
                exclude_splits := exclude_splits,
                statistics :=
                  { artifacts :=
                      [{ split_names :=
                           forLoopRemove (excludeCond exclude_splits) a.split_names }] } },
            warnings := if input_data.isSome then 1 else 0,
            examplesAfter :=
              some { artifacts :=
                       [{ a with split_names :=
                            forLoopRemove (excludeCond exclude_splits) a.split_names }] } }

/-- Modelled from the spec: the exclusion step as the spec words it,
"S with every element of E removed, order preserved" implemented as
filter-and-rebuild.  Used only to compare against the source loop. -/
def specExclude (S E : List String) : List String :=
  S.filter (fun s => !E.contains s)

/-- Claim C8: with one examples artifact having split names
train, eval, test and exclusion list containing test, the derived
output artifact carries split names train, eval. -/
theorem c8_concrete_example :
    (StatisticsGen_init (some ⟨[⟨["train", "eval", "test"]⟩]⟩) none none
        (some ["test"]) none none).map
        (fun r => r.spec.statistics.artifacts.map Artifact.split_names)
      = Except.ok [["train", "eval"]] := by
  rfl

/-- Claim C1: the claim demands that every element of the exclusion
list is removed even when matches are adjacent duplicates, but the
source's remove-during-iteration loop skips the element after each
removal: on split names test, test, train with exclusion list test the
code yields test, train while the spec-mandated filter yields train. -/
theorem c1_duplicate_matches_skipped :
    (StatisticsGen_init (some ⟨[⟨["test", "test", "train"]⟩]⟩) none none
        (some ["test"]) none none).map
        (fun r => r.spec.statistics.artifacts.map Artifact.split_names)
      = Except.ok [["test", "train"]]
    ∧ specExclude ["test", "test", "train"] ["test"] = ["train"]
    ∧ (["test", "train"] : List String) ≠ ["train"] := by
  refine ⟨by rfl, by decide, by decide⟩

/-- Claim C2: the claim demands the derivation work on a copy of the
input artifact's split-name sequence, but the source reads the list by
plain attribute access and calls `remove` on it in place: after
construction with split names train, test and exclusion list test, the
input examples artifact's split names have shrunk to train. -/
theorem c2_input_artifact_mutated :
    (StatisticsGen_init (some ⟨[⟨["train", "test"]⟩]⟩) none none
        (some ["test"]) none none).map (fun r => r.examplesAfter)
      = Except.ok (some ⟨[⟨["train"]⟩]⟩)
    ∧ (some (⟨[⟨["train"]⟩]⟩ : Channel)) ≠ some (⟨[⟨["train", "test"]⟩]⟩ : Channel) := by
  refine ⟨by rfl, by decide⟩

/-- If no element of the list satisfies the exclusion condition, the
remove-during-iteration loop leaves the list unchanged. -/
theorem forLoopRemoveAux_no_match (cond : String → Bool) :
    ∀ (fuel : Nat) (l : List String) (i : Nat),
      (∀ s ∈ l, cond s = false) → forLoopRemoveAux cond fuel l i = l := by
  intro fuel
  induction fuel with
  | zero => intro l i _; rfl
  | succ n ih =>
    intro l i hc
    rw [forLoopRemoveAux]
    by_cases h : i < l.length
    · have hfalse : cond (l.get ⟨i, h⟩) = false := hc _ (l.get_mem i h)
      rw [dif_pos h, if_neg (by rw [hfalse]; exact Bool.false_ne_true)]
      exact ih l (i + 1) hc
    · rw [dif_neg h]

/-- The remove-during-iteration loop only ever deletes elements, so its
result is a sublist (order-preserving subsequence) of its input. -/
theorem forLoopRemoveAux_sublist (cond : String → Bool) :
    ∀ (fuel : Nat) (l : List String) (i : Nat),
      (forLoopRemoveAux cond fuel l i).Sublist l := by
  intro fuel
  induction fuel with
  | zero => intro l i; exact List.Sublist.refl l
  | succ n ih =>
    intro l i
    rw [forLoopRemoveAux]
    by_cases h : i < l.length
    · rw [dif_pos h]
      by_cases hcond : cond (l.get ⟨i, h⟩) = true
      · rw [if_pos hcond]
        exact (ih _ _).trans (List.erase_sublist _ _)
      · rw [if_neg hcond]
        exact ih _ _
    · rw [dif_neg h]

/-- Every element present in the input but absent from the result of the
remove-during-iteration loop satisfied the exclusion condition: the loop
never deletes a non-matching element, even when it fails to delete every
matching one. -/
theorem forLoopRemoveAux_removed (cond : String → Bool) :
    ∀ (fuel : Nat) (l : List String) (i : Nat) (x : String),
      x ∈ l → x ∉ forLoopRemoveAux cond fuel l i → cond x = true := by
  intro fuel
  induction fuel with
  | zero => intro l i x hx hnx; exact absurd hx hnx
  | succ n ih =>
    intro l i x hx hnx
    rw [forLoopRemoveAux] at hnx
    by_cases h : i < l.length
    · rw [dif_pos h] at hnx
      by_cases hcond : cond (l.get ⟨i, h⟩) = true
      · rw [if_pos hcond] at hnx
        by_cases hxs : x = l.get ⟨i, h⟩
        · rw [hxs]; exact hcond
        · exact ih _ _ x ((List.mem_erase_of_ne hxs).mpr hx) hnx
      · rw [if_neg hcond] at hnx
        exact ih _ _ x hx hnx
    · rw [dif_neg h] at hnx
      exact absurd hx hnx

/-- Claim C3: with an explicitly provided output channel the constructor
returns immediately: the assembled spec's statistics field is exactly
that channel, no warning beyond the alias one is emitted, the examples
channel state is untouched, and the derivation logic (artifact read,
split filtering, new channel creation) never runs, whatever the examples
channel contains. -/
theorem c3_explicit_output_verbatim (examples schema : Option Channel)
    (so : Option StatsOptions) (eo : Option (List String)) (out : Channel)
    (input_data : Option Channel) :
    StatisticsGen_init examples schema so eo (some out) input_data =
      Except.ok
        { spec :=
            { examples := resolveExamples examples input_data, schema := schema,
              stats_options_json := so.map StatsOptions.to_json,
              exclude_splits := eo, statistics := out },
          warnings := if input_data.isSome then 1 else 0,
          examplesAfter := resolveExamples examples input_data } :=
  rfl

/-- Claim C4: with `input_data` provided and `examples` absent, the
legacy alias path succeeds (given that either an explicit output is
supplied or the aliased channel holds exactly one artifact): the spec's
examples field equals the `input_data` value and exactly one deprecation
warning is emitted. -/
theorem c4_legacy_alias (schema : Option Channel) (so : Option StatsOptions)
    (eo : Option (List String)) (output : Option Channel) (c : Channel)
    (h : output.isSome = true ∨ c.artifacts.length = 1) :
    ∃ r, StatisticsGen_init none schema so eo output (some c) = Except.ok r ∧
      r.spec.examples = some c ∧ r.warnings = 1 := by
  rcases h with h | h
  · rcases Option.isSome_iff_exists.mp h with ⟨out, rfl⟩
    exact ⟨_, rfl, rfl, rfl⟩
  · rcases output with _ | out
    · rcases c with ⟨l⟩
      rcases l with _ | ⟨a, t⟩
      · simp at h
      · rcases t with _ | ⟨b, t⟩
        · exact ⟨_, rfl, rfl, rfl⟩
        · simp at h
    · exact ⟨_, rfl, rfl, rfl⟩

/-- Witness for C4 at a concrete input. -/
theorem c4_legacy_alias_witness :
    ∃ r, StatisticsGen_init none none none none (some ⟨[]⟩)
        (some ⟨[⟨["train"]⟩]⟩) = Except.ok r ∧
      r.spec.examples = some ⟨[⟨["train"]⟩]⟩ ∧ r.warnings = 1 :=
  c4_legacy_alias none none none (some ⟨[]⟩) ⟨[⟨["train"]⟩]⟩ (Or.inl rfl)

/-- Claim C5: whenever construction succeeds, the assembled spec's
serialized-options field is `none` when `stats_options` was omitted and
the `to_json` serialization of the provided object otherwise. -/
theorem c5_stats_options_serialization (examples schema : Option Channel)
    (so : Option StatsOptions) (eo : Option (List String))
    (output input_data : Option Channel) (r : ConstructResult)
    (h : StatisticsGen_init examples schema so eo output input_data = Except.ok r) :
    r.spec.stats_options_json = so.map StatsOptions.to_json := by
  unfold StatisticsGen_init at h
  split at h
  · injection h with h
    subst h
    rfl
  · split at h
    · exact Except.noConfusion h
    · split at h
      · exact Except.noConfusion h
      · injection h with h
        subst h
        rfl

/-- Witness for C5 at a concrete input with options provided. -/
theorem c5_stats_options_serialization_witness :
    ({ spec := { examples := none, schema := none, stats_options_json := some "opts",
                 exclude_splits := none, statistics := ⟨[]⟩ },
       warnings := 0, examplesAfter := none } : ConstructResult).spec.stats_options_json
      = (some (StatsOptions.mk "opts")).map StatsOptions.to_json :=
  c5_stats_options_serialization none none (some ⟨"opts"⟩) none (some ⟨[]⟩) none
    { spec := { examples := none, schema := none, stats_options_json := some "opts",
                exclude_splits := none, statistics := ⟨[]⟩ },
      warnings := 0, examplesAfter := none } rfl

/-- Claim C6: with no explicit output channel (and no legacy alias),
construction fails exactly when the examples channel does not hold
exactly one artifact, and the error it fails with is the cardinality
error produced by `get_single_instance`, propagated unchanged. -/
theorem c6_cardinality_error_propagated (schema : Option Channel)
    (so : Option StatsOptions) (eo : Option (List String)) (exc : Channel) :
    ((∃ e, StatisticsGen_init (some exc) schema so eo none none = Except.error e)
        ↔ exc.artifacts.length ≠ 1)
    ∧ ∀ e, StatisticsGen_init (some exc) schema so eo none none = Except.error e →
        get_single_instance exc.artifacts = Except.error e := by
  rcases exc with ⟨l⟩
  rcases l with _ | ⟨a, t⟩
  · refine ⟨⟨fun _ => by simp, fun _ => ⟨_, rfl⟩⟩, fun e he => ?_⟩
    injection he with he
    subst he
    rfl
  · rcases t with _ | ⟨b, t⟩
    · refine ⟨⟨fun h2 => ?_, fun h2 => absurd rfl h2⟩, fun e he => ?_⟩
      · rcases h2 with ⟨e, he⟩
        exact Except.noConfusion he
      · exact Except.noConfusion he
    · refine ⟨⟨fun _ => by simp, fun _ => ⟨_, rfl⟩⟩, fun e he => ?_⟩
      injection he with he
      subst he
      rfl

/-- Witness for C6: on an empty examples channel the construction
propagates the collaborator's cardinality error verbatim. -/
theorem c6_cardinality_error_propagated_witness :
    get_single_instance (Channel.mk []).artifacts =
      Except.error "expected list length of one but got 0" :=
  (c6_cardinality_error_propagated none none none ⟨[]⟩).2 _ rfl

/-- Claim C7: if the exclusion list is empty, or mentions only names
absent from the input artifact's split names, the derived output
artifact's split names equal the input's, unchanged. -/
theorem c7_noop_exclusion (S E : List String)
    (hE : E = [] ∨ ∀ e ∈ E, e ∉ S) :
    ∃ r, StatisticsGen_init (some ⟨[⟨S⟩]⟩) none none (some E) none none =
        Except.ok r ∧
      r.spec.statistics.artifacts.map Artifact.split_names = [S] := by
  have hc : ∀ s ∈ S, excludeCond (some E) s = false := by
    intro s hs
    rcases hE with rfl | hE
    · rfl
    · have hmem : s ∉ E := fun hmemE => hE s hmemE hs
      simp [excludeCond, hmem]
  refine ⟨_, rfl, ?_⟩
  show [forLoopRemove (excludeCond (some E)) S] = [S]
  rw [forLoopRemove, forLoopRemoveAux_no_match (excludeCond (some E)) S.length S 0 hc]

/-- Witness for C7 at a concrete input with an empty exclusion list. -/
theorem c7_noop_exclusion_witness :
    ∃ r, StatisticsGen_init (some ⟨[⟨["train"]⟩]⟩) none none (some []) none none =
        Except.ok r ∧
      r.spec.statistics.artifacts.map Artifact.split_names = [["train"]] :=
  c7_noop_exclusion ["train"] [] (Or.inl rfl)

/-- Claim C9: when both `examples` and `input_data` are supplied, the
alias silently wins: the spec's examples field equals the `input_data`
value whatever the `examples` argument was, and the deprecation warning
is still emitted (given that either an explicit output is supplied or
the aliased channel holds exactly one artifact). -/
theorem c9_input_data_precedence (e : Channel) (schema : Option Channel)
    (so : Option StatsOptions) (eo : Option (List String))
    (output : Option Channel) (c : Channel)
    (h : output.isSome = true ∨ c.artifacts.length = 1) :
    ∃ r, StatisticsGen_init (some e) schema so eo output (some c) = Except.ok r ∧
      r.spec.examples = some c ∧ r.warnings = 1 := by
  rcases h with h | h
  · rcases Option.isSome_iff_exists.mp h with ⟨out, rfl⟩
    exact ⟨_, rfl, rfl, rfl⟩
  · rcases output with _ | out
    · rcases c with ⟨l⟩
      rcases l with _ | ⟨a, t⟩
      · simp at h
      · rcases t with _ | ⟨b, t⟩
        · exact ⟨_, rfl, rfl, rfl⟩
        · simp at h
    · exact ⟨_, rfl, rfl, rfl⟩

/-- Witness for C9: the discarded `examples` channel is even one with a
bad cardinality, yet construction succeeds on the alias channel. -/
theorem c9_input_data_precedence_witness :
    ∃ r, StatisticsGen_init (some ⟨[]⟩) none none none none
        (some ⟨[⟨["train"]⟩]⟩) = Except.ok r ∧
      r.spec.examples = some ⟨[⟨["train"]⟩]⟩ ∧ r.warnings = 1 :=
  c9_input_data_precedence ⟨[]⟩ none none none none ⟨[⟨["train"]⟩]⟩ (Or.inr rfl)

/-- Claim C10: whatever the exclusion list, the derived output split
names form a subsequence of the input split names (original order, no
invented elements), and every input element missing from the output is
a member of the exclusion list: the loop never removes a name outside
the exclusion list even when it fails to remove every occurrence of
names inside it. -/
theorem c10_sublist_removed_only_excluded (S E : List String) :
    ∀ r, StatisticsGen_init (some ⟨[⟨S⟩]⟩) none none (some E) none none =
        Except.ok r →
      ∀ a ∈ r.spec.statistics.artifacts,
        a.split_names.Sublist S ∧ ∀ x ∈ S, x ∉ a.split_names → x ∈ E := by
  intro r h a ha
  injection h with h
  subst h
  simp only [List.mem_singleton] at ha
  subst ha
  constructor
  · exact forLoopRemoveAux_sublist _ _ _ _
  · intro x hx hnx
    have hc := forLoopRemoveAux_removed _ _ _ _ x hx hnx
    simp only [excludeCond, Bool.and_eq_true] at hc
    exact List.mem_of_elem_eq_true hc.2

/-- Witness for C10 at a concrete input. -/
theorem c10_sublist_removed_only_excluded_witness :
    (Artifact.mk ["train"]).split_names.Sublist ["train", "test"]
      ∧ ∀ x ∈ (["train", "test"] : List String),
          x ∉ (Artifact.mk ["train"]).split_names → x ∈ (["test"] : List String) :=
  c10_sublist_removed_only_excluded ["train", "test"] ["test"]
    { spec := { examples := some ⟨[⟨["train", "test"]⟩]⟩, schema := none,
                stats_options_json := none, exclude_splits := some ["test"],
                statistics := ⟨[⟨["train"]⟩]⟩ },
      warnings := 0, examplesAfter := some ⟨[⟨["train"]⟩]⟩ }
    rfl ⟨["train"]⟩ (by decide)
